import Mathlib

/-!
Shallow embedding of `src/CHOFermentation.py`, class `CHOFermentationSimulator`.

Python floats are modelled as real numbers.  The numpy arrays filled in by the
explicit-Euler loop of `simulate` are modelled by the recursively defined row
function `row` (index `i` is the array index); `np.arange(0, stop, step)` is
modelled by its exact-arithmetic semantics: `ceil(stop / step)` points `i*step`.
`np.round(x, 2)` rounds half to even, modelled by `np_round2`.
-/

namespace CHOFermentation

/-- The constructor arguments of `CHOFermentationSimulator.__init__`
(`duration=288, time_step=1.0`); every other attribute is a hard-coded
literal, embedded below as a constant. -/
structure Simulator where
  duration : ℚ
  time_step : ℚ

/-- The default instance `CHOFermentationSimulator()`. -/
def defaultSimulator : Simulator := ⟨288, 1⟩

/-- Length of `self.time_points = np.arange(0, duration + time_step, time_step)`:
for a positive step, `np.arange(0, stop, step)` has `ceil(stop / step)` entries. -/
def numPoints (sim : Simulator) : ℕ :=
  ⌈(sim.duration + sim.time_step) / sim.time_step⌉₊

/-- Entry `i` of `self.time_points`, namely `i * time_step`. -/
def timePoint (sim : Simulator) (i : ℕ) : ℚ :=
  i * sim.time_step

/-- Constant `self.max_growth_rate = 0.035`. -/
def max_growth_rate : ℝ := 0.035

/-- Constant `self.substrate_affinity = 2.0`. -/
def substrate_affinity : ℝ := 2.0

/-- Constant `self.yield_coefficient = 0.4`. -/
def yield_coefficient : ℝ := 0.4

/-- Constant `self.maintenance_coefficient = 0.02`. -/
def maintenance_coefficient : ℝ := 0.02

/-- Constant `self.death_rate = 0.005` (the base death rate attribute). -/
def death_rate : ℝ := 0.005

/-- Constant `self.antibody_productivity = 0.8`. -/
def antibody_productivity : ℝ := 0.8

/-- Constant `self.inhibition_constant = 50.0`. -/
def inhibition_constant : ℝ := 50.0

/-- Constant `self.optimal['temp'] = 37.0`. -/
def optimal_temp : ℝ := 37.0

/-- Constant `self.optimal['ph'] = 7.2`. -/
def optimal_ph : ℝ := 7.2

/-- Constant `self.optimal['oxygen'] = 50.0`. -/
def optimal_oxygen : ℝ := 50.0

/-- Constant `self.optimal['glucose'] = 20`. -/
def optimal_glucose : ℝ := 20

/-- Constant `self.sigma['temp'] = 2.0`. -/
def sigma_temp : ℝ := 2.0

/-- Constant `self.sigma['ph'] = 0.4`. -/
def sigma_ph : ℝ := 0.4

/-- Constant `self.sigma['oxygen'] = 20.0`. -/
def sigma_oxygen : ℝ := 20.0

/-- Constant `self.sigma['glucose'] = 40.0`. -/
def sigma_glucose : ℝ := 40.0

/-- Function `stress_gaussian(deviation, sigma) = np.exp(-0.5 * (deviation / sigma)**2)`. -/
noncomputable def stress_gaussian (deviation sigma : ℝ) : ℝ :=
  Real.exp (-0.5 * (deviation / sigma) ^ 2)

/-- Method `evaluate_environment`: returns the pair
`(activity_effect, self.death_rate * combined_stress)` where `activity_effect`
is the product of the four Gaussian factors and `combined_stress` the product of
their reciprocals (dict order: temp, ph, oxygen, glucose). -/
noncomputable def evaluate_environment
    (temperature ph oxygen_saturation glucose : ℝ) : ℝ × ℝ :=
  let dev_temp := temperature - optimal_temp
  let dev_ph := ph - optimal_ph
  let dev_oxygen := oxygen_saturation - optimal_oxygen
  let dev_glucose := glucose - optimal_glucose
  let activity_effect :=
    stress_gaussian dev_temp sigma_temp * stress_gaussian dev_ph sigma_ph *
      stress_gaussian dev_oxygen sigma_oxygen *
      stress_gaussian dev_glucose sigma_glucose
  let combined_stress :=
    1 / stress_gaussian dev_temp sigma_temp * (1 / stress_gaussian dev_ph sigma_ph) *
      (1 / stress_gaussian dev_oxygen sigma_oxygen) *
      (1 / stress_gaussian dev_glucose sigma_glucose)
  (activity_effect, death_rate * combined_stress)

/-- Method `monod_kinetics(substrate, k_s, k_i=None)`: zero for nonpositive substrate,
plain Monod without `k_i`, Haldane with `k_i`. -/
noncomputable def monod_kinetics (substrate k_s : ℝ) (k_i : Option ℝ) : ℝ :=
  if substrate ≤ 0 then 0
  else
    match k_i with
    | none => substrate / (k_s + substrate)
    | some ki => substrate / (k_s + substrate + substrate ^ 2 / ki)

/-- One row of the `data` arrays of `simulate` (the unrounded trajectory state).
Field order: glucose, vcd, tcd, dead_cells, viability, antibody_titer. -/
structure Row where
  glucose : ℝ
  vcd : ℝ
  tcd : ℝ
  dead_cells : ℝ
  viability : ℝ
  antibody_titer : ℝ

/-- The five caller-supplied arguments of `simulate`. -/
structure RunParams where
  initial_glucose : ℝ
  initial_vcd : ℝ
  temperature : ℝ
  ph_constant : ℝ
  oxygen_saturation : ℝ

/-- Index 0 of the `data` arrays (lines 113-116): glucose = initial glucose,
vcd = tcd = initial VCD, dead cells 0, viability 100.0, titer 0. -/
def initRow (initial_glucose initial_vcd : ℝ) : Row :=
  ⟨initial_glucose, initial_vcd, initial_vcd, 0, 100, 0⟩

/-- The `activity_effect` consumed by iteration `i` of the loop, computed from
the previous row's glucose and the run's fixed environment. -/
noncomputable def stepActivity
    (temperature ph_constant oxygen_saturation : ℝ) (prev : Row) : ℝ :=
  (evaluate_environment temperature ph_constant oxygen_saturation prev.glucose).1

/-- The `death_rate` local of iteration `i` of the loop (second component of
`evaluate_environment`, shadowing the base-rate attribute). -/
noncomputable def stepDeathRate
    (temperature ph_constant oxygen_saturation : ℝ) (prev : Row) : ℝ :=
  (evaluate_environment temperature ph_constant oxygen_saturation prev.glucose).2

/-- The `growth_rate` local of iteration `i`:
`max_growth_rate * substrate_factor * activity_effect if prev_vcd > 0 else 0`,
with the substrate factor from Haldane kinetics on previous glucose. -/
noncomputable def stepGrowthRate
    (temperature ph_constant oxygen_saturation : ℝ) (prev : Row) : ℝ :=
  if prev.vcd > 0 then
    max_growth_rate *
      monod_kinetics prev.glucose substrate_affinity (some inhibition_constant) *
      stepActivity temperature ph_constant oxygen_saturation prev
  else 0

/-- One iteration of the Euler loop (lines 119-166), producing row `i`
from row `i-1`. -/
noncomputable def step (sim : Simulator)
    (temperature ph_constant oxygen_saturation : ℝ) (prev : Row) : Row :=
  let dt : ℝ := (sim.time_step : ℝ)
  let activity_effect := stepActivity temperature ph_constant oxygen_saturation prev
  let growth_rate := stepGrowthRate temperature ph_constant oxygen_saturation prev
  let vcd_growth := growth_rate * prev.vcd * dt
  let vcd_death := stepDeathRate temperature ph_constant oxygen_saturation prev * prev.vcd * dt
  let vcd_current := max 0 (prev.vcd + vcd_growth - vcd_death)
  let dead_cells := prev.dead_cells + vcd_death
  let tcd := vcd_current + dead_cells
  let viability := if tcd > 0 then vcd_current / tcd * 100 else 0
  let glucose_consumption :=
    vcd_growth / yield_coefficient + maintenance_coefficient * prev.vcd * dt
  let glucose := max 0 (prev.glucose - glucose_consumption)
  let antibody_titer :=
    if vcd_current > 0 then
      prev.antibody_titer + antibody_productivity * vcd_current * dt * activity_effect
    else prev.antibody_titer
  ⟨glucose, vcd_current, tcd, dead_cells, viability, antibody_titer⟩

/-- Row `i` of the `data` arrays of `simulate` (the unrounded trajectory):
row 0 is the initial condition, row `i+1` is one Euler step from row `i`. -/
noncomputable def row (sim : Simulator) (p : RunParams) : ℕ → Row
  | 0 => initRow p.initial_glucose p.initial_vcd
  | i + 1 => step sim p.temperature p.ph_constant p.oxygen_saturation (row sim p i)

/-- Rounding `np.round(x)` to an integer: round half to even. -/
noncomputable def np_round_half_even (x : ℝ) : ℤ :=
  if x - ⌊x⌋ = 1 / 2 then (if Even ⌊x⌋ then ⌊x⌋ else ⌊x⌋ + 1) else round x

/-- Rounding `np.round(x, 2)`: round `100 x` half to even, divide by 100. -/
noncomputable def np_round2 (x : ℝ) : ℝ :=
  (np_round_half_even (x * 100) : ℝ) / 100

/-- One row of the `pd.DataFrame` returned by `simulate` (lines 168-179):
time and the five state columns rounded to 2 decimals at construction, the
three environment columns repeated unrounded. -/
structure TableRow where
  zeit : ℝ
  glukose : ℝ
  vcd : ℝ
  tcd : ℝ
  viabilitaet : ℝ
  antikoerper_titer : ℝ
  temperatur : ℝ
  ph : ℝ
  sauerstoff : ℝ

/-- Row `i` of the DataFrame returned by `simulate`: the rounding of
`np.round(. , 2)` is applied at DataFrame construction, to the finished
unrounded arrays. -/
noncomputable def simulate (sim : Simulator) (p : RunParams) (i : ℕ) : TableRow :=
  ⟨np_round2 ((timePoint sim i : ℚ) : ℝ),
   np_round2 (row sim p i).glucose,
   np_round2 (row sim p i).vcd,
   np_round2 (row sim p i).tcd,
   np_round2 (row sim p i).viability,
   np_round2 (row sim p i).antibody_titer,
   p.temperature, p.ph_constant, p.oxygen_saturation⟩

/-- The full table returned by `simulate`: one `TableRow` per entry of
`self.time_points`. -/
noncomputable def simulateTable (sim : Simulator) (p : RunParams) : List TableRow :=
  (List.range (numPoints sim)).map (simulate sim p)

/-- The spec's description of the returned table (`4.3 Output`): `np.round(., 2)`
applied pointwise to the exact (unrounded) trajectory state, never inside the
recurrence. -/
noncomputable def specRoundRow (r : Row) : Row :=
  ⟨np_round2 r.glucose, np_round2 r.vcd, np_round2 r.tcd, np_round2 r.dead_cells,
    np_round2 r.viability, np_round2 r.antibody_titer⟩

/-! ### Unfolding lemmas for the fields of one Euler step -/

theorem row_zero (sim : Simulator) (p : RunParams) :
    row sim p 0 = initRow p.initial_glucose p.initial_vcd := rfl

theorem row_succ (sim : Simulator) (p : RunParams) (i : ℕ) :
    row sim p (i + 1) =
      step sim p.temperature p.ph_constant p.oxygen_saturation (row sim p i) := rfl

theorem step_vcd (sim : Simulator) (t q o : ℝ) (prev : Row) :
    (step sim t q o prev).vcd =
      max 0 (prev.vcd + stepGrowthRate t q o prev * prev.vcd * (sim.time_step : ℝ)
        - stepDeathRate t q o prev * prev.vcd * (sim.time_step : ℝ)) := rfl

theorem step_dead_cells (sim : Simulator) (t q o : ℝ) (prev : Row) :
    (step sim t q o prev).dead_cells =
      prev.dead_cells + stepDeathRate t q o prev * prev.vcd * (sim.time_step : ℝ) := rfl

theorem step_tcd (sim : Simulator) (t q o : ℝ) (prev : Row) :
    (step sim t q o prev).tcd =
      (step sim t q o prev).vcd + (step sim t q o prev).dead_cells := rfl

theorem step_viability (sim : Simulator) (t q o : ℝ) (prev : Row) :
    (step sim t q o prev).viability =
      if (step sim t q o prev).tcd > 0 then
        (step sim t q o prev).vcd / (step sim t q o prev).tcd * 100
      else 0 := rfl

theorem step_glucose (sim : Simulator) (t q o : ℝ) (prev : Row) :
    (step sim t q o prev).glucose =
      max 0 (prev.glucose -
        (stepGrowthRate t q o prev * prev.vcd * (sim.time_step : ℝ) / yield_coefficient
          + maintenance_coefficient * prev.vcd * (sim.time_step : ℝ))) := rfl

theorem step_antibody_titer (sim : Simulator) (t q o : ℝ) (prev : Row) :
    (step sim t q o prev).antibody_titer =
      if (step sim t q o prev).vcd > 0 then
        prev.antibody_titer +
          antibody_productivity * (step sim t q o prev).vcd * (sim.time_step : ℝ) *
            stepActivity t q o prev
      else prev.antibody_titer := rfl

/-! ### Sign facts about the stress model and kinetics -/

theorem stress_gaussian_pos (d s : ℝ) : 0 < stress_gaussian d s :=
  Real.exp_pos _

theorem stepActivity_pos (t q o : ℝ) (prev : Row) :
    0 < stepActivity t q o prev := by
  have h1 := stress_gaussian_pos (t - optimal_temp) sigma_temp
  have h2 := stress_gaussian_pos (q - optimal_ph) sigma_ph
  have h3 := stress_gaussian_pos (o - optimal_oxygen) sigma_oxygen
  have h4 := stress_gaussian_pos (prev.glucose - optimal_glucose) sigma_glucose
  unfold stepActivity evaluate_environment
  positivity

theorem stepDeathRate_pos (t q o : ℝ) (prev : Row) :
    0 < stepDeathRate t q o prev := by
  have h1 := stress_gaussian_pos (t - optimal_temp) sigma_temp
  have h2 := stress_gaussian_pos (q - optimal_ph) sigma_ph
  have h3 := stress_gaussian_pos (o - optimal_oxygen) sigma_oxygen
  have h4 := stress_gaussian_pos (prev.glucose - optimal_glucose) sigma_glucose
  have h0 : (0 : ℝ) < death_rate := by norm_num [death_rate]
  unfold stepDeathRate evaluate_environment
  positivity

theorem monod_nonpos_eq (s ks : ℝ) (ki : Option ℝ) (hs : s ≤ 0) :
    monod_kinetics s ks ki = 0 := by
  simp [monod_kinetics, hs]

theorem monod_none_eq (s ks : ℝ) (hs : 0 < s) :
    monod_kinetics s ks none = s / (ks + s) := by
  simp [monod_kinetics, not_le.mpr hs]

theorem monod_some_eq (s ks ki : ℝ) (hs : 0 < s) :
    monod_kinetics s ks (some ki) = s / (ks + s + s ^ 2 / ki) := by
  simp [monod_kinetics, not_le.mpr hs]

theorem monod_none_mem (s ks : ℝ) (hks : 0 < ks) :
    0 ≤ monod_kinetics s ks none ∧ monod_kinetics s ks none < 1 := by
  rcases le_or_lt s 0 with hs | hs
  · rw [monod_nonpos_eq s ks none hs]; norm_num
  · rw [monod_none_eq s ks hs]
    constructor
    · exact div_nonneg hs.le (by linarith)
    · rw [div_lt_one (by linarith)]; linarith

theorem monod_some_mem (s ks ki : ℝ) (hks : 0 < ks) (hki : 0 < ki) :
    0 ≤ monod_kinetics s ks (some ki) ∧ monod_kinetics s ks (some ki) < 1 := by
  rcases le_or_lt s 0 with hs | hs
  · rw [monod_nonpos_eq s ks (some ki) hs]; norm_num
  · have hq : 0 < s ^ 2 / ki := by positivity
    rw [monod_some_eq s ks ki hs]
    constructor
    · exact div_nonneg hs.le (by linarith)
    · rw [div_lt_one (by linarith)]; linarith

theorem stepGrowthRate_nonneg (t q o : ℝ) (prev : Row) :
    0 ≤ stepGrowthRate t q o prev := by
  unfold stepGrowthRate
  split
  · have hm := monod_some_mem prev.glucose substrate_affinity inhibition_constant
      (by norm_num [substrate_affinity]) (by norm_num [inhibition_constant])
    have ha := stepActivity_pos t q o prev
    have h0 : (0 : ℝ) ≤ max_growth_rate := by norm_num [max_growth_rate]
    exact mul_nonneg (mul_nonneg h0 hm.1) ha.le
  · exact le_refl 0

/-! ### Invariants of the Euler recurrence -/

theorem vcd_nonneg (sim : Simulator) (p : RunParams) (hv0 : 0 ≤ p.initial_vcd) :
    ∀ i, 0 ≤ (row sim p i).vcd
  | 0 => hv0
  | _ + 1 => le_max_left 0 _

theorem glucose_nonneg (sim : Simulator) (p : RunParams)
    (hg0 : 0 ≤ p.initial_glucose) :
    ∀ i, 0 ≤ (row sim p i).glucose
  | 0 => hg0
  | _ + 1 => le_max_left 0 _

theorem dead_cells_succ_ge (sim : Simulator) (p : RunParams)
    (hv0 : 0 ≤ p.initial_vcd) (hdt : 0 ≤ sim.time_step) (i : ℕ) :
    (row sim p i).dead_cells ≤ (row sim p (i + 1)).dead_cells := by
  rw [row_succ, step_dead_cells]
  have hdr := stepDeathRate_pos p.temperature p.ph_constant p.oxygen_saturation
    (row sim p i)
  have hv := vcd_nonneg sim p hv0 i
  have hdt' : (0 : ℝ) ≤ (sim.time_step : ℝ) := by exact_mod_cast hdt
  have hterm : (0 : ℝ) ≤
      stepDeathRate p.temperature p.ph_constant p.oxygen_saturation (row sim p i) *
        (row sim p i).vcd * (sim.time_step : ℝ) :=
    mul_nonneg (mul_nonneg hdr.le hv) hdt'
  linarith

theorem dead_cells_nonneg (sim : Simulator) (p : RunParams)
    (hv0 : 0 ≤ p.initial_vcd) (hdt : 0 ≤ sim.time_step) :
    ∀ i, 0 ≤ (row sim p i).dead_cells
  | 0 => le_refl 0
  | i + 1 =>
    le_trans (dead_cells_nonneg sim p hv0 hdt i) (dead_cells_succ_ge sim p hv0 hdt i)

theorem tcd_eq_vcd_add_dead_aux (sim : Simulator) (p : RunParams) :
    ∀ i, (row sim p i).tcd = (row sim p i).vcd + (row sim p i).dead_cells
  | 0 => by simp [row_zero, initRow]
  | i + 1 => step_tcd sim p.temperature p.ph_constant p.oxygen_saturation (row sim p i)

theorem titer_succ_ge (sim : Simulator) (p : RunParams)
    (hdt : 0 ≤ sim.time_step) (i : ℕ) :
    (row sim p i).antibody_titer ≤ (row sim p (i + 1)).antibody_titer := by
  rw [row_succ, step_antibody_titer]
  split
  · have ha := stepActivity_pos p.temperature p.ph_constant p.oxygen_saturation
      (row sim p i)
    have hvc : (0 : ℝ) ≤ (step sim p.temperature p.ph_constant p.oxygen_saturation
        (row sim p i)).vcd := le_max_left 0 _
    have hdt' : (0 : ℝ) ≤ (sim.time_step : ℝ) := by exact_mod_cast hdt
    have hap : (0 : ℝ) ≤ antibody_productivity := by norm_num [antibody_productivity]
    have hterm : (0 : ℝ) ≤
        antibody_productivity *
          (step sim p.temperature p.ph_constant p.oxygen_saturation (row sim p i)).vcd *
          (sim.time_step : ℝ) *
          stepActivity p.temperature p.ph_constant p.oxygen_saturation (row sim p i) :=
      mul_nonneg (mul_nonneg (mul_nonneg hap hvc) hdt') ha.le
    linarith
  · exact le_refl _

theorem viability_mem (sim : Simulator) (p : RunParams)
    (hv0 : 0 ≤ p.initial_vcd) (hdt : 0 ≤ sim.time_step) :
    ∀ i, 0 ≤ (row sim p i).viability ∧ (row sim p i).viability ≤ 100
  | 0 => by norm_num [row_zero, initRow]
  | i + 1 => by
    rw [row_succ, step_viability]
    split
    · next htcd =>
      set r := step sim p.temperature p.ph_constant p.oxygen_saturation (row sim p i)
        with hr
      have hvc : (0 : ℝ) ≤ r.vcd := le_max_left 0 _
      have hdead : (0 : ℝ) ≤ r.dead_cells := by
        have := dead_cells_nonneg sim p hv0 hdt (i + 1)
        rwa [row_succ] at this
      have hle : r.vcd ≤ r.tcd := by
        rw [step_tcd] at htcd ⊢
        linarith
      constructor
      · positivity
      · have h1 : r.vcd / r.tcd ≤ 1 := (div_le_one htcd).mpr hle
        nlinarith [div_nonneg hvc htcd.le]
    · norm_num

/-! ### Claim theorems -/

/-- C1, counterexample: starting the run with `initial_vcd = 0` gives
`TCD[0] = 0` yet `viability[0] = 100`, not `0`, because line 116 sets
`data['viability'][0] = 100.0` unconditionally. -/
theorem c1_viability_row0_counterexample :
    (row defaultSimulator ⟨25, 0, 37, 7.2, 50⟩ 0).tcd = 0 ∧
      (row defaultSimulator ⟨25, 0, 37, 7.2, 50⟩ 0).viability = 100 ∧
      (row defaultSimulator ⟨25, 0, 37, 7.2, 50⟩ 0).viability ≠ 0 := by
  refine ⟨rfl, rfl, ?_⟩
  show (100 : ℝ) ≠ 0
  norm_num

/-- C1 (amended): for every run with `initial_vcd ≥ 0` and `time_step ≥ 0`,
`viability[i] ∈ [0, 100]` for all `i`, and `viability[i] = 0` whenever
`TCD[i] = 0` for every loop-computed row `i ≥ 1`; row 0 however always has
`viability[0] = 100`, even when `initial_vcd = 0` makes `TCD[0] = 0`. -/
theorem c1_viability_bounds (sim : Simulator) (p : RunParams)
    (hv0 : 0 ≤ p.initial_vcd) (hdt : 0 ≤ sim.time_step) :
    (∀ i, 0 ≤ (row sim p i).viability ∧ (row sim p i).viability ≤ 100) ∧
      (∀ i, (row sim p (i + 1)).tcd = 0 → (row sim p (i + 1)).viability = 0) ∧
      (row sim p 0).viability = 100 := by
  refine ⟨viability_mem sim p hv0 hdt, ?_, rfl⟩
  intro i htcd
  rw [row_succ, step_viability]
  rw [row_succ] at htcd
  rw [htcd]
  norm_num

/-- C1, witness for the amended theorem at the default configuration and the
spec's reference run. -/
theorem c1_viability_bounds_witness :
    0 ≤ (⟨25, 1/2, 37, 7.2, 50⟩ : RunParams).initial_vcd ∧
      0 ≤ defaultSimulator.time_step ∧
      ((∀ i, 0 ≤ (row defaultSimulator ⟨25, 1/2, 37, 7.2, 50⟩ i).viability ∧
          (row defaultSimulator ⟨25, 1/2, 37, 7.2, 50⟩ i).viability ≤ 100) ∧
        (∀ i, (row defaultSimulator ⟨25, 1/2, 37, 7.2, 50⟩ (i + 1)).tcd = 0 →
          (row defaultSimulator ⟨25, 1/2, 37, 7.2, 50⟩ (i + 1)).viability = 0) ∧
        (row defaultSimulator ⟨25, 1/2, 37, 7.2, 50⟩ 0).viability = 100) :=
  ⟨by norm_num, by norm_num [defaultSimulator],
    c1_viability_bounds defaultSimulator ⟨25, 1/2, 37, 7.2, 50⟩ (by norm_num)
      (by norm_num [defaultSimulator])⟩

/-- C2: for every configuration, run and step `i` of the unrounded trajectory,
`TCD[i] = VCD[i] + deadCells[i]` holds exactly (line 147 defines `tcd` as that
sum, and row 0 has `tcd = vcd`, `dead_cells = 0`). -/
theorem c2_tcd_eq_vcd_add_dead (sim : Simulator) (p : RunParams) (i : ℕ) :
    (row sim p i).tcd = (row sim p i).vcd + (row sim p i).dead_cells :=
  tcd_eq_vcd_add_dead_aux sim p i

/-- C3: for every run with `initial_vcd ≥ 0` and `time_step ≥ 0`, the
cumulative dead-cell sequence and the antibody-titer sequence are
non-decreasing in the step index. -/
theorem c3_dead_titer_monotone (sim : Simulator) (p : RunParams)
    (hv0 : 0 ≤ p.initial_vcd) (hdt : 0 ≤ sim.time_step) :
    Monotone (fun i => (row sim p i).dead_cells) ∧
      Monotone (fun i => (row sim p i).antibody_titer) :=
  ⟨monotone_nat_of_le_succ (dead_cells_succ_ge sim p hv0 hdt),
    monotone_nat_of_le_succ (titer_succ_ge sim p hdt)⟩

/-- C3, witness at the default configuration and the spec's reference run. -/
theorem c3_dead_titer_monotone_witness :
    0 ≤ (⟨25, 1/2, 37, 7.2, 50⟩ : RunParams).initial_vcd ∧
      0 ≤ defaultSimulator.time_step ∧
      (Monotone (fun i => (row defaultSimulator ⟨25, 1/2, 37, 7.2, 50⟩ i).dead_cells) ∧
        Monotone (fun i => (row defaultSimulator ⟨25, 1/2, 37, 7.2, 50⟩ i).antibody_titer)) :=
  ⟨by norm_num, by norm_num [defaultSimulator],
    c3_dead_titer_monotone defaultSimulator ⟨25, 1/2, 37, 7.2, 50⟩ (by norm_num)
      (by norm_num [defaultSimulator])⟩

/-- C4: for every run with `initial_glucose ≥ 0` and `initial_vcd ≥ 0`, every
row `i` (including row 0) has `glucose[i] ≥ 0` and `VCD[i] ≥ 0` (rows `i ≥ 1`
are floored at zero by `max(0, .)`, row 0 by the preconditions). -/
theorem c4_glucose_vcd_nonneg (sim : Simulator) (p : RunParams)
    (hg0 : 0 ≤ p.initial_glucose) (hv0 : 0 ≤ p.initial_vcd) :
    ∀ i, 0 ≤ (row sim p i).glucose ∧ 0 ≤ (row sim p i).vcd :=
  fun i => ⟨glucose_nonneg sim p hg0 i, vcd_nonneg sim p hv0 i⟩

/-- C4, witness at the default configuration and the spec's reference run. -/
theorem c4_glucose_vcd_nonneg_witness :
    0 ≤ (⟨25, 1/2, 37, 7.2, 50⟩ : RunParams).initial_glucose ∧
      0 ≤ (⟨25, 1/2, 37, 7.2, 50⟩ : RunParams).initial_vcd ∧
      (∀ i, 0 ≤ (row defaultSimulator ⟨25, 1/2, 37, 7.2, 50⟩ i).glucose ∧
        0 ≤ (row defaultSimulator ⟨25, 1/2, 37, 7.2, 50⟩ i).vcd) :=
  ⟨by norm_num, by norm_num,
    c4_glucose_vcd_nonneg defaultSimulator ⟨25, 1/2, 37, 7.2, 50⟩ (by norm_num)
      (by norm_num)⟩

/-- C5, counterexample: with `initial_vcd = 0` but `initial_glucose = -1`,
glucose does not stay at `initial_glucose`: step 1 floors it to 0 via
`max(0, prev_glucose - consumption)`. -/
theorem c5_zero_vcd_counterexample :
    (row defaultSimulator ⟨-1, 0, 37, 7.2, 50⟩ 0).glucose = -1 ∧
      (row defaultSimulator ⟨-1, 0, 37, 7.2, 50⟩ 1).glucose = 0 ∧
      (0 : ℝ) ≠ -1 := by
  refine ⟨rfl, ?_, by norm_num⟩
  rw [show (1 : ℕ) = 0 + 1 from rfl, row_succ, step_glucose]
  norm_num [row_zero, initRow]

/-- C5 (amended): for every run with `initial_vcd = 0` and
`initial_glucose ≥ 0` (any temperature, pH, oxygen): `VCD[i] = 0`,
`antibodyTiter[i] = 0` and `glucose[i] = initial_glucose` for every step `i`. -/
theorem c5_zero_vcd_frame (sim : Simulator) (g0 t q o : ℝ) (hg : 0 ≤ g0) :
    ∀ i, (row sim ⟨g0, 0, t, q, o⟩ i).vcd = 0 ∧
      (row sim ⟨g0, 0, t, q, o⟩ i).antibody_titer = 0 ∧
      (row sim ⟨g0, 0, t, q, o⟩ i).glucose = g0 := by
  intro i
  induction i with
  | zero => exact ⟨rfl, rfl, rfl⟩
  | succ i ih =>
    obtain ⟨hvcd, htit, hglu⟩ := ih
    have hvstep : (row sim ⟨g0, 0, t, q, o⟩ (i + 1)).vcd = 0 := by
      rw [row_succ, step_vcd, hvcd]
      norm_num
    refine ⟨hvstep, ?_, ?_⟩
    · rw [row_succ, step_antibody_titer]
      rw [row_succ] at hvstep
      rw [hvstep, htit]
      norm_num
    · rw [row_succ, step_glucose, hvcd, hglu]
      norm_num [max_eq_right hg]

/-- C5, witness for the amended theorem. -/
theorem c5_zero_vcd_frame_witness :
    0 ≤ (25 : ℝ) ∧
      (∀ i, (row defaultSimulator ⟨25, 0, 37, 7.2, 50⟩ i).vcd = 0 ∧
        (row defaultSimulator ⟨25, 0, 37, 7.2, 50⟩ i).antibody_titer = 0 ∧
        (row defaultSimulator ⟨25, 0, 37, 7.2, 50⟩ i).glucose = 25) :=
  ⟨by norm_num, c5_zero_vcd_frame defaultSimulator 25 37 7.2 50 (by norm_num)⟩

/-- C6: for `k_s > 0` (and `k_i > 0` when supplied), `monod_kinetics` returns a
value in `[0, 1)`; it returns 0 for every `substrate ≤ 0`, and for
`substrate > 0` it returns `substrate/(k_s + substrate)` without `k_i` and
`substrate/(k_s + substrate + substrate²/k_i)` with `k_i`. -/
theorem c6_monod_kinetics_contract (s ks ki : ℝ) (hks : 0 < ks) (hki : 0 < ki) :
    (s ≤ 0 → monod_kinetics s ks none = 0 ∧ monod_kinetics s ks (some ki) = 0) ∧
      (0 < s → monod_kinetics s ks none = s / (ks + s) ∧
        monod_kinetics s ks (some ki) = s / (ks + s + s ^ 2 / ki)) ∧
      (0 ≤ monod_kinetics s ks none ∧ monod_kinetics s ks none < 1) ∧
      (0 ≤ monod_kinetics s ks (some ki) ∧ monod_kinetics s ks (some ki) < 1) :=
  ⟨fun hs => ⟨monod_nonpos_eq s ks none hs, monod_nonpos_eq s ks (some ki) hs⟩,
    fun hs => ⟨monod_none_eq s ks hs, monod_some_eq s ks ki hs⟩,
    monod_none_mem s ks hks, monod_some_mem s ks ki hks hki⟩

/-- C6, witness at the model's own constants
(`substrate = 20`, `k_s = 2`, `k_i = 50`). -/
theorem c6_monod_kinetics_contract_witness :
    (0 : ℝ) < 2 ∧ (0 : ℝ) < 50 ∧
      (((20 : ℝ) ≤ 0 → monod_kinetics 20 2 none = 0 ∧ monod_kinetics 20 2 (some 50) = 0) ∧
        ((0 : ℝ) < 20 → monod_kinetics 20 2 none = 20 / (2 + 20) ∧
          monod_kinetics 20 2 (some 50) = 20 / (2 + 20 + 20 ^ 2 / 50)) ∧
        (0 ≤ monod_kinetics 20 2 none ∧ monod_kinetics 20 2 none < 1) ∧
        (0 ≤ monod_kinetics 20 2 (some 50) ∧ monod_kinetics 20 2 (some 50) < 1)) :=
  ⟨by norm_num, by norm_num,
    c6_monod_kinetics_contract 20 2 50 (by norm_num) (by norm_num)⟩

/-- C7: for `substrate > 0`, `k_s > 0`, `k_i > 0`, the Haldane factor is
strictly less than the plain Monod factor at the same substrate. -/
theorem c7_haldane_lt_monod (s ks ki : ℝ) (hs : 0 < s) (hks : 0 < ks)
    (hki : 0 < ki) :
    monod_kinetics s ks (some ki) < monod_kinetics s ks none := by
  rw [monod_some_eq s ks ki hs, monod_none_eq s ks hs]
  have hq : 0 < s ^ 2 / ki := by positivity
  exact div_lt_div_of_pos_left hs (by linarith) (by linarith)

/-- C7, witness at the model's own constants. -/
theorem c7_haldane_lt_monod_witness :
    (0 : ℝ) < 20 ∧ (0 : ℝ) < 2 ∧ (0 : ℝ) < 50 ∧
      monod_kinetics 20 2 (some 50) < monod_kinetics 20 2 none :=
  ⟨by norm_num, by norm_num, by norm_num,
    c7_haldane_lt_monod 20 2 50 (by norm_num) (by norm_num) (by norm_num)⟩

/-- C8, counterexample: the configuration `duration = 3, time_step = 2`
satisfies the stated preconditions (`time_step > 0`, `duration ≥ time_step`),
yet `np.arange(0, 3 + 2, 2)` has 3 sample points — not
`duration/time_step + 1 = 2.5` — and the last sample time is `4 ≠ duration`. -/
theorem c8_rows_counterexample :
    0 < (Simulator.mk 3 2).time_step ∧
      (Simulator.mk 3 2).time_step ≤ (Simulator.mk 3 2).duration ∧
      numPoints (Simulator.mk 3 2) = 3 ∧
      ((numPoints (Simulator.mk 3 2) : ℚ) ≠
        (Simulator.mk 3 2).duration / (Simulator.mk 3 2).time_step + 1) ∧
      (simulateTable (Simulator.mk 3 2) ⟨25, 1/2, 37, 7.2, 50⟩).length = 3 ∧
      timePoint (Simulator.mk 3 2) (numPoints (Simulator.mk 3 2) - 1) = 4 ∧
      (4 : ℚ) ≠ (Simulator.mk 3 2).duration := by
  have hn : numPoints (Simulator.mk 3 2) = 3 := by
    rw [numPoints, Nat.ceil_eq_iff (by norm_num)]
    norm_num
  refine ⟨by norm_num, by norm_num, hn, ?_, ?_, ?_, by norm_num⟩
  · rw [hn]; norm_num
  · simp [simulateTable, hn]
  · rw [hn]; norm_num [timePoint]

/-- C8 (amended): for every configuration with `time_step > 0` and
`duration = k · time_step` an exact whole number `k ≥ 1` of steps, the
trajectory returned by `simulate` has exactly `k + 1 = duration/time_step + 1`
rows, and the sample-time sequence is the strictly increasing sequence
`0, time_step, 2·time_step, …` with last entry `duration`.  (When `time_step`
does not divide `duration`, `np.arange` overshoots: see the counterexample.) -/
theorem c8_rows_and_times (sim : Simulator) (p : RunParams) (k : ℕ)
    (hts : 0 < sim.time_step) (_hk : 1 ≤ k)
    (hdur : sim.duration = k * sim.time_step) :
    numPoints sim = k + 1 ∧
      (simulateTable sim p).length = k + 1 ∧
      (∀ i : ℕ, timePoint sim i = i * sim.time_step) ∧
      timePoint sim 0 = 0 ∧
      timePoint sim k = sim.duration ∧
      StrictMono (timePoint sim) := by
  have hn : numPoints sim = k + 1 := by
    rw [numPoints, hdur,
      show ((k : ℚ) * sim.time_step + sim.time_step) = (k + 1) * sim.time_step by ring,
      mul_div_cancel_right₀ _ hts.ne.symm,
      show ((k : ℚ) + 1) = ((k + 1 : ℕ) : ℚ) by push_cast; ring]
    exact Nat.ceil_natCast _
  refine ⟨hn, by simp [simulateTable, hn], fun i => rfl, by simp [timePoint],
    by rw [timePoint, hdur], ?_⟩
  intro a b hab
  rw [timePoint, timePoint]
  have : (a : ℚ) < (b : ℚ) := by exact_mod_cast hab
  exact mul_lt_mul_of_pos_right this hts

/-- C8, witness for the amended theorem at the default configuration
(`duration = 288 = 288 · 1`, giving 289 rows). -/
theorem c8_rows_and_times_witness :
    0 < defaultSimulator.time_step ∧ 1 ≤ 288 ∧
      defaultSimulator.duration = (288 : ℕ) * defaultSimulator.time_step ∧
      (numPoints defaultSimulator = 288 + 1 ∧
        (simulateTable defaultSimulator ⟨25, 1/2, 37, 7.2, 50⟩).length = 288 + 1 ∧
        (∀ i : ℕ, timePoint defaultSimulator i = i * defaultSimulator.time_step) ∧
        timePoint defaultSimulator 0 = 0 ∧
        timePoint defaultSimulator 288 = defaultSimulator.duration ∧
        StrictMono (timePoint defaultSimulator)) :=
  ⟨by norm_num [defaultSimulator], by norm_num, by norm_num [defaultSimulator],
    c8_rows_and_times defaultSimulator ⟨25, 1/2, 37, 7.2, 50⟩ 288
      (by norm_num [defaultSimulator]) (by norm_num)
      (by norm_num [defaultSimulator])⟩

/-- C9: every numeric field of row `i` of the returned table is the exact
`i`-step value of the unrounded Euler recurrence (`row`) rounded to 2 decimal
places — the rounding is applied only at table construction, pointwise to the
exact trajectory, so it never compounds step to step. -/
theorem c9_simulate_rounds_exact_trajectory (sim : Simulator) (p : RunParams)
    (i : ℕ) :
    (simulate sim p i).zeit = np_round2 ((timePoint sim i : ℚ) : ℝ) ∧
      (simulate sim p i).glukose = (specRoundRow (row sim p i)).glucose ∧
      (simulate sim p i).vcd = (specRoundRow (row sim p i)).vcd ∧
      (simulate sim p i).tcd = (specRoundRow (row sim p i)).tcd ∧
      (simulate sim p i).viabilitaet = (specRoundRow (row sim p i)).viability ∧
      (simulate sim p i).antikoerper_titer =
        (specRoundRow (row sim p i)).antibody_titer ∧
      (simulate sim p i).temperatur = p.temperature ∧
      (simulate sim p i).ph = p.ph_constant ∧
      (simulate sim p i).sauerstoff = p.oxygen_saturation :=
  ⟨rfl, rfl, rfl, rfl, rfl, rfl, rfl, rfl, rfl⟩

/-- C10: the per-step dead-cell increment is exactly
`death_rate · prev_VCD · dt`, never capped by the cells actually available: at
any step where `death_rate · dt > 1 + growth_rate · dt` and `prev_VCD > 0`,
the new VCD is floored to 0 while dead cells grow by strictly more than
`prev_VCD + vcd_growth`, so TCD strictly increases with no matching growth. -/
theorem c10_dead_increment_uncapped (sim : Simulator) (p : RunParams) (i : ℕ)
    (hdt : 0 ≤ sim.time_step)
    (hv : 0 < (row sim p i).vcd)
    (hd : 1 + stepGrowthRate p.temperature p.ph_constant p.oxygen_saturation
        (row sim p i) * (sim.time_step : ℝ) <
      stepDeathRate p.temperature p.ph_constant p.oxygen_saturation
        (row sim p i) * (sim.time_step : ℝ)) :
    (row sim p (i + 1)).vcd = 0 ∧
      (row sim p (i + 1)).dead_cells - (row sim p i).dead_cells =
        stepDeathRate p.temperature p.ph_constant p.oxygen_saturation
          (row sim p i) * (row sim p i).vcd * (sim.time_step : ℝ) ∧
      (row sim p i).vcd +
          stepGrowthRate p.temperature p.ph_constant p.oxygen_saturation
            (row sim p i) * (row sim p i).vcd * (sim.time_step : ℝ) <
        (row sim p (i + 1)).dead_cells - (row sim p i).dead_cells ∧
      (row sim p i).tcd < (row sim p (i + 1)).tcd := by
  set v := (row sim p i).vcd with hv_def
  set g := stepGrowthRate p.temperature p.ph_constant p.oxygen_saturation
    (row sim p i) with hg_def
  set d := stepDeathRate p.temperature p.ph_constant p.oxygen_saturation
    (row sim p i) with hd_def
  set dt : ℝ := (sim.time_step : ℝ) with hdt_def
  have hdt' : (0 : ℝ) ≤ dt := by rw [hdt_def]; exact_mod_cast hdt
  have hg0 : 0 ≤ g := stepGrowthRate_nonneg _ _ _ _
  have hvcd0 : (row sim p (i + 1)).vcd = 0 := by
    rw [row_succ, step_vcd]
    rw [← hv_def, ← hg_def, ← hd_def, ← hdt_def]
    have hneg : v + g * v * dt - d * v * dt ≤ 0 := by nlinarith
    exact max_eq_left hneg
  have hdead : (row sim p (i + 1)).dead_cells - (row sim p i).dead_cells =
      d * v * dt := by
    rw [row_succ, step_dead_cells]
    rw [← hv_def, ← hd_def, ← hdt_def]
    ring
  refine ⟨hvcd0, hdead, ?_, ?_⟩
  · rw [hdead]; nlinarith
  · rw [tcd_eq_vcd_add_dead_aux sim p i, tcd_eq_vcd_add_dead_aux sim p (i + 1),
      hvcd0, ← hv_def]
    have hstep : (row sim p (i + 1)).dead_cells =
        (row sim p i).dead_cells + d * v * dt := by linarith [hdead]
    rw [hstep]
    have h1 : (1 : ℝ) < d * dt := by nlinarith
    have h2 : v * 1 < v * (d * dt) := mul_lt_mul_of_pos_left h1 hv
    nlinarith

/-- C10, witness: run `(glucose 20, VCD 1, temperature 137, pH 7.2, oxygen 50)`
on the default configuration.  At step 1 the inverse-Gaussian stress makes
`death_rate = 0.005·exp(1250)`, far above `1 + growth_rate·dt`, so all cells
die in one step yet `deadCells` grows by more than the cells that existed. -/
theorem c10_dead_increment_uncapped_witness :
    0 ≤ defaultSimulator.time_step ∧
      0 < (row defaultSimulator ⟨20, 1, 137, 7.2, 50⟩ 0).vcd ∧
      (1 + stepGrowthRate 137 7.2 50 (row defaultSimulator ⟨20, 1, 137, 7.2, 50⟩ 0) *
          (defaultSimulator.time_step : ℝ) <
        stepDeathRate 137 7.2 50 (row defaultSimulator ⟨20, 1, 137, 7.2, 50⟩ 0) *
          (defaultSimulator.time_step : ℝ)) ∧
      ((row defaultSimulator ⟨20, 1, 137, 7.2, 50⟩ (0 + 1)).vcd = 0 ∧
        (row defaultSimulator ⟨20, 1, 137, 7.2, 50⟩ (0 + 1)).dead_cells -
            (row defaultSimulator ⟨20, 1, 137, 7.2, 50⟩ 0).dead_cells =
          stepDeathRate 137 7.2 50 (row defaultSimulator ⟨20, 1, 137, 7.2, 50⟩ 0) *
            (row defaultSimulator ⟨20, 1, 137, 7.2, 50⟩ 0).vcd *
            (defaultSimulator.time_step : ℝ) ∧
        (row defaultSimulator ⟨20, 1, 137, 7.2, 50⟩ 0).vcd +
            stepGrowthRate 137 7.2 50 (row defaultSimulator ⟨20, 1, 137, 7.2, 50⟩ 0) *
              (row defaultSimulator ⟨20, 1, 137, 7.2, 50⟩ 0).vcd *
              (defaultSimulator.time_step : ℝ) <
          (row defaultSimulator ⟨20, 1, 137, 7.2, 50⟩ (0 + 1)).dead_cells -
            (row defaultSimulator ⟨20, 1, 137, 7.2, 50⟩ 0).dead_cells ∧
        (row defaultSimulator ⟨20, 1, 137, 7.2, 50⟩ 0).tcd <
          (row defaultSimulator ⟨20, 1, 137, 7.2, 50⟩ (0 + 1)).tcd) := by
  have hdt : 0 ≤ defaultSimulator.time_step := by norm_num [defaultSimulator]
  have hv : 0 < (row defaultSimulator ⟨20, 1, 137, 7.2, 50⟩ 0).vcd := by
    norm_num [row_zero, initRow]
  have hdr : stepDeathRate 137 7.2 50 (row defaultSimulator ⟨20, 1, 137, 7.2, 50⟩ 0) =
      (0.005 : ℝ) * (1 / Real.exp (-1250)) := by
    norm_num [row_zero, initRow, stepDeathRate, evaluate_environment, stress_gaussian,
      death_rate, optimal_temp, optimal_ph, optimal_oxygen, optimal_glucose,
      sigma_temp, sigma_ph, sigma_oxygen, sigma_glucose]
  have hgr : stepGrowthRate 137 7.2 50 (row defaultSimulator ⟨20, 1, 137, 7.2, 50⟩ 0) =
      (0.035 : ℝ) * (2 / 3) * Real.exp (-1250) := by
    norm_num [row_zero, initRow, stepGrowthRate, monod_kinetics, max_growth_rate,
      substrate_affinity, inhibition_constant, stepActivity, evaluate_environment,
      stress_gaussian, optimal_temp, optimal_ph, optimal_oxygen, optimal_glucose,
      sigma_temp, sigma_ph, sigma_oxygen, sigma_glucose]
  have hcast : ((defaultSimulator.time_step : ℚ) : ℝ) = 1 := by
    norm_num [defaultSimulator]
  have hd : 1 + stepGrowthRate 137 7.2 50 (row defaultSimulator ⟨20, 1, 137, 7.2, 50⟩ 0) *
      (defaultSimulator.time_step : ℝ) <
      stepDeathRate 137 7.2 50 (row defaultSimulator ⟨20, 1, 137, 7.2, 50⟩ 0) *
      (defaultSimulator.time_step : ℝ) := by
    rw [hgr, hdr, hcast]
    have hE : (1251 : ℝ) ≤ Real.exp 1250 := by
      linarith [Real.add_one_le_exp (1250 : ℝ)]
    have hle : Real.exp (-1250) ≤ 1 := by
      rw [Real.exp_neg]
      exact inv_le_one_of_one_le₀ (by linarith)
    have hrw : 1 / Real.exp (-1250) = Real.exp 1250 := by
      rw [Real.exp_neg, one_div, inv_inv]
    rw [hrw]
    nlinarith
  exact ⟨hdt, hv, hd,
    c10_dead_increment_uncapped defaultSimulator ⟨20, 1, 137, 7.2, 50⟩ 0 hdt hv hd⟩

end CHOFermentation
